import Mathlib

/-!
Shallow embedding of the zellij client core (`src/client/mod.rs`): the
`ClientInstruction` protocol, the `start_client` orchestrator loop with its
startup, error and teardown paths, the server router thread, the signal
listener, and the bounded instruction channel.  Side effects (terminal
writes, raw-mode toggles, server messages, thread join) are modelled as an
explicit event trace.
-/

/-- Terminal size `(rows, cols)` as returned by `get_terminal_size_using_fd`. -/
structure Winsize where
  rows : Nat
  cols : Nat
deriving DecidableEq, Repr

/-- The `ClientInstruction` enum from `src/client/mod.rs` lines 24-30. -/
inductive ClientInstruction where
  | Error (msg : String)
  | Render (output : Option String)
  | UnblockInputThread
  | Exit
deriving DecidableEq, Repr

/-- The three `ServerInstruction` variants the client emits. -/
inductive ServerInstruction where
  | NewClient (ws : Winsize)
  | TerminalResize (ws : Winsize)
  | ClientExit
deriving DecidableEq, Repr

/-- A diagnostic context: an ordered sequence of call-site tags. -/
abbrev ErrCtx := List Nat

/-- Modelled from the spec: `ClientContext::from(&instruction)` (the `errors`
module is not part of the visible source) maps each instruction variant to a
tagged call-site; we tag by variant index. -/
def clientContextTag : ClientInstruction → Nat
  | .Error _ => 0
  | .Render _ => 1
  | .UnblockInputThread => 2
  | .Exit => 3

/-- The operation `err_ctx.add_call(...)`: append a call-site tag, never mutate in place. -/
def addCall (ctx : ErrCtx) (tag : Nat) : ErrCtx := ctx ++ [tag]

/-- Observable side effects of the client, in program order. -/
inductive Event where
  | unsetRawMode (fd : Nat)
  | setRawMode (fd : Nat)
  | writeStdout (s : String)
  | flushStdout
  | eprint (s : String)
  | connectToServer
  | sendToServer (i : ServerInstruction)
  | unblockGate
  | joinRouter
deriving DecidableEq, Repr

/-- Escape `"\u{1b}[?1049h"` — enter alternate screen (line 33). -/
def takeSnapshot : String := "\x1b[?1049h"

/-- Escape `"\u{1b}[?1049l"` — leave alternate screen (lines 137, 170). -/
def restoreSnapshot : String := "\x1b[?1049l"

/-- Escape `"\u{1b}[m"` — reset style (line 168). -/
def resetStyle : String := "\x1b[m"

/-- Escape `"\u{1b}[?25h"` — show cursor (line 169). -/
def showCursor : String := "\x1b[?25h"

/-- The string `format!("\u{1b}[{};{}H", full_screen_ws.rows, 1)` (lines 136, 171). -/
def gotoStartOfLastLine (ws : Winsize) : String :=
  "\x1b[" ++ toString ws.rows ++ ";" ++ toString 1 ++ "H"

/-- The string `format!("{}\n{}{}", goto_start_of_last_line, restore_snapshot, backtrace)`
(lines 138-141). -/
def errorMessage (ws : Winsize) (backtrace : String) : String :=
  gotoStartOfLastLine ws ++ "\n" ++ restoreSnapshot ++ backtrace

/-- The string `format!("{}\n{}{}{}Bye from Zellij!\n", goto_start_of_last_line,
restore_snapshot, reset_style, show_cursor)` (lines 172-175). -/
def goodbyeMessage (ws : Winsize) : String :=
  gotoStartOfLastLine ws ++ "\n" ++ restoreSnapshot ++ resetStyle ++ showCursor
    ++ "Bye from Zellij!\n"

/-- Outcome of the orchestrator's `loop` (lines 123-162). -/
inductive LoopOutcome where
  | exitedError
  | finished
  | blocked
deriving DecidableEq, Repr

/-- Events produced by the `Error(backtrace)` arm (lines 133-147): notify the
server, unset raw mode, write the positioned error text; `process::exit(1)`
follows with no flush. -/
def errorArmEvents (ws : Winsize) (backtrace : String) : List Event :=
  [Event.sendToServer ServerInstruction.ClientExit, Event.unsetRawMode 0,
   Event.writeStdout (errorMessage ws backtrace)]

/-- The orchestrator's main `loop` (lines 123-162) over the sequence of
instructions it receives from the channel.  `err_ctx.add_call` is executed on
every iteration (line 128) but the resulting context is only diagnostic: it
never feeds into the match below, which is reflected here by the context
component of each pair being unused.  An exhausted input list means the loop
is still blocked in `recv`. -/
def mainLoop (ws : Winsize) : List (ClientInstruction × ErrCtx) → List Event × LoopOutcome
  | [] => ([], LoopOutcome.blocked)
  | (instr, _ctx) :: rest =>
    match instr with
    | .Exit => ([], LoopOutcome.finished)
    | .Error backtrace => (errorArmEvents ws backtrace, LoopOutcome.exitedError)
    | .Render none => ([], LoopOutcome.finished)
    | .Render (some output) =>
      let r := mainLoop ws rest
      (Event.writeStdout output :: Event.flushStdout :: r.1, r.2)
    | .UnblockInputThread =>
      let r := mainLoop ws rest
      (Event.unblockGate :: r.1, r.2)

/-- Startup events before the config load (lines 33-38). -/
def startupEvents : List Event :=
  [Event.unsetRawMode 0, Event.writeStdout takeSnapshot]

/-- Setup events after a successful config load (lines 50-52). -/
def setupEvents (ws : Winsize) : List Event :=
  [Event.connectToServer, Event.sendToServer (ServerInstruction.NewClient ws),
   Event.setRawMode 0]

/-- Teardown events after the loop breaks (lines 164-180). -/
def teardownEvents (ws : Winsize) : List Event :=
  [Event.sendToServer ServerInstruction.ClientExit, Event.joinRouter,
   Event.unsetRawMode 0, Event.writeStdout (goodbyeMessage ws), Event.flushStdout]

/-- Result of a run of `start_client`: the event trace and the process exit
code (`none` while the loop is still blocked in `recv`). -/
structure RunResult where
  trace : List Event
  exitCode : Option Nat
deriving DecidableEq, Repr

/-- Function `start_client` (lines 32-181).  `configResult` models
`Config::from_cli_config(opts.config)`; `ws` is the terminal size captured
once at line 49; `instrs` is the sequence of `(instruction, context)` pairs
the orchestrator receives from the instruction channel. -/
def start_client (configResult : Except String Unit) (ws : Winsize)
    (instrs : List (ClientInstruction × ErrCtx)) : RunResult :=
  match configResult with
  | .error e =>
    { trace := startupEvents
        ++ [Event.eprint ("There was an error in the config file:\n" ++ e)],
      exitCode := some 1 }
  | .ok _ =>
    let r := mainLoop ws instrs
    match r.2 with
    | LoopOutcome.exitedError =>
      { trace := startupEvents ++ setupEvents ws ++ r.1, exitCode := some 1 }
    | LoopOutcome.finished =>
      { trace := startupEvents ++ setupEvents ws ++ r.1 ++ teardownEvents ws,
        exitCode := some 0 }
    | LoopOutcome.blocked =>
      { trace := startupEvents ++ setupEvents ws ++ r.1, exitCode := none }

/-- The router thread's loop (lines 107-118) over the messages
`recv_from_server` yields.  Returns the instructions sent onto the channel and
whether the thread returned (`true`) or is still blocked in
`recv_from_server` (`false`). -/
def router_thread : List (ClientInstruction × ErrCtx) → List ClientInstruction × Bool
  | [] => ([], false)
  | (instr, _ctx) :: rest =>
    match instr with
    | .Exit => ([ClientInstruction.Exit], true)
    | i =>
      let r := router_thread rest
      (i :: r.1, r.2)

/-- The signal listener (lines 85-100): on each resize notification it reads
the current size and sends `TerminalResize` to the server. -/
def signal_thread (sizes : List Winsize) : List Event :=
  sizes.map fun s => Event.sendToServer (ServerInstruction.TerminalResize s)

/-- Capacity argument of `mpsc::sync_channel(500)` (line 56): the channel's fixed capacity. -/
def channelBound : Nat := 500

/-- Outcome of a channel `send`: either the new queue, or the producer blocks
because the queue is full (nothing is dropped, nothing fails). -/
inductive SendOutcome where
  | sent (q : List (ClientInstruction × ErrCtx))
  | blockedFull
deriving DecidableEq, Repr

/-- Modelled from the spec: `mpsc::sync_channel` send semantics (the channel
implementation is std, not repository source; `src` fixes only the capacity
500).  A send enqueues at the tail when a slot is free and blocks the
producer when the queue is full. -/
def chSend (q : List (ClientInstruction × ErrCtx)) (x : ClientInstruction × ErrCtx) :
    SendOutcome :=
  if q.length < channelBound then SendOutcome.sent (q ++ [x]) else SendOutcome.blockedFull

/-- Modelled from the spec: `mpsc::sync_channel` receive semantics — dequeue
from the head (FIFO); `none` means the consumer blocks on an empty queue. -/
def chRecv (q : List (ClientInstruction × ErrCtx)) :
    Option ((ClientInstruction × ErrCtx) × List (ClientInstruction × ErrCtx)) :=
  match q with
  | [] => none
  | x :: rest => some (x, rest)

/-- An instruction the orchestrator loop consumes without leaving `Running`. -/
def nonTerminal : ClientInstruction → Bool
  | .Render (some _) => true
  | .UnblockInputThread => true
  | _ => false

/-- Events of one non-terminal loop iteration. -/
def nonTerminalEvents : ClientInstruction → List Event
  | .Render (some output) => [Event.writeStdout output, Event.flushStdout]
  | .UnblockInputThread => [Event.unblockGate]
  | _ => []

/-- Holds (as `true`) when some `writeStdout` event in the trace contains `needle` as a
substring. -/
def writesContaining (needle : String) (tr : List Event) : Bool :=
  tr.any fun e =>
    match e with
    | Event.writeStdout s => decide (needle.data <:+: s.data)
    | _ => false

/-- The client system as a whole, for resize independence: `getSize t` is the
terminal size at the time of the `t`-th size query; `start_client` captures
query 0 (line 49), the signal listener performs queries `1..n` (line 94). -/
def client_system (getSize : Nat → Winsize) (configResult : Except String Unit)
    (instrs : List (ClientInstruction × ErrCtx)) (nResizes : Nat) :
    RunResult × List Event :=
  (start_client configResult (getSize 0) instrs,
   signal_thread ((List.range nResizes).map fun i => getSize (i + 1)))

/-- Events emitted by a run of non-terminal loop iterations, in order. -/
def preEvents : List (ClientInstruction × ErrCtx) → List Event
  | [] => []
  | p :: rest => nonTerminalEvents p.1 ++ preEvents rest

theorem nonTerminalEvents_mem (i : ClientInstruction) (e : Event)
    (h : e ∈ nonTerminalEvents i) :
    e = Event.flushStdout ∨ e = Event.unblockGate ∨ ∃ s, e = Event.writeStdout s := by
  cases i with
  | Error m => simp [nonTerminalEvents] at h
  | Exit => simp [nonTerminalEvents] at h
  | UnblockInputThread =>
    simp [nonTerminalEvents] at h
    exact Or.inr (Or.inl h)
  | Render o =>
    cases o with
    | none => simp [nonTerminalEvents] at h
    | some s =>
      simp [nonTerminalEvents] at h
      rcases h with h | h
      · exact Or.inr (Or.inr ⟨s, h⟩)
      · exact Or.inl h

theorem preEvents_mem (pre : List (ClientInstruction × ErrCtx)) (e : Event)
    (h : e ∈ preEvents pre) :
    e = Event.flushStdout ∨ e = Event.unblockGate ∨ ∃ s, e = Event.writeStdout s := by
  induction pre with
  | nil => simp [preEvents] at h
  | cons p rest ih =>
    simp only [preEvents, List.mem_append] at h
    rcases h with h | h
    · exact nonTerminalEvents_mem p.1 e h
    · exact ih h

theorem sendToServer_not_mem_preEvents (i : ServerInstruction)
    (pre : List (ClientInstruction × ErrCtx)) :
    Event.sendToServer i ∉ preEvents pre := by
  intro h
  rcases preEvents_mem pre _ h with h | h | ⟨s, h⟩ <;> simp at h

theorem joinRouter_not_mem_preEvents (pre : List (ClientInstruction × ErrCtx)) :
    Event.joinRouter ∉ preEvents pre := by
  intro h
  rcases preEvents_mem pre _ h with h | h | ⟨s, h⟩ <;> simp at h

theorem mainLoop_nonTerminal_decomp (ws : Winsize)
    (pre rest : List (ClientInstruction × ErrCtx))
    (hpre : ∀ p ∈ pre, nonTerminal p.1 = true) :
    mainLoop ws (pre ++ rest) =
      (preEvents pre ++ (mainLoop ws rest).1, (mainLoop ws rest).2) := by
  induction pre with
  | nil => simp [preEvents]
  | cons p pr ih =>
    have hp : nonTerminal p.1 = true := hpre p (List.mem_cons_self p pr)
    have hr : ∀ q ∈ pr, nonTerminal q.1 = true :=
      fun q hq => hpre q (List.mem_cons_of_mem p hq)
    obtain ⟨i, c⟩ := p
    cases i with
    | Error m => simp [nonTerminal] at hp
    | Exit => simp [nonTerminal] at hp
    | UnblockInputThread =>
      simp [mainLoop, preEvents, nonTerminalEvents, ih hr]
    | Render o =>
      cases o with
      | none => simp [nonTerminal] at hp
      | some s => simp [mainLoop, preEvents, nonTerminalEvents, ih hr]

/-- C1: the claim as stated is false at a concrete failing config: before the
exit-1, `start_client` has already unset raw mode (line 34) and written the
enter-alternate-screen escape (lines 35-38), so a terminal escape sequence
has been written and raw mode has been changed before the exit. -/
theorem config_error_cex :
    (start_client (Except.error "oops") ⟨24, 80⟩ []).exitCode = some 1 ∧
    Event.writeStdout takeSnapshot ∈ (start_client (Except.error "oops") ⟨24, 80⟩ []).trace ∧
    Event.unsetRawMode 0 ∈ (start_client (Except.error "oops") ⟨24, 80⟩ []).trace := by
  refine ⟨rfl, ?_, ?_⟩ <;> simp [start_client, startupEvents]

/-- C1 (amended): if loading the configuration fails, `start_client` prints
the error to stderr and terminates with exit code 1 before connecting to the
server, sending any server message, or setting raw mode; however the
enter-alternate-screen escape has already been written and raw mode has
already been unset before the config load. -/
theorem config_error_amended (e : String) (ws : Winsize)
    (instrs : List (ClientInstruction × ErrCtx)) :
    (start_client (Except.error e) ws instrs).exitCode = some 1 ∧
    (start_client (Except.error e) ws instrs).trace =
      [Event.unsetRawMode 0, Event.writeStdout takeSnapshot,
       Event.eprint ("There was an error in the config file:\n" ++ e)] ∧
    Event.connectToServer ∉ (start_client (Except.error e) ws instrs).trace ∧
    Event.setRawMode 0 ∉ (start_client (Except.error e) ws instrs).trace ∧
    ∀ i, Event.sendToServer i ∉ (start_client (Except.error e) ws instrs).trace := by
  refine ⟨rfl, by simp [start_client, startupEvents], ?_, ?_, ?_⟩ <;>
    simp [start_client, startupEvents]

/-- C2: the claim as stated is false at the concrete run where the server
yields exactly one `Exit`: the router breaks out of its loop without
forwarding the received `Exit` and sends a single synthetic `Exit`, so one
`Exit` is placed on the channel, not two. -/
theorem router_double_exit_cex :
    router_thread [(ClientInstruction.Exit, [])] = ([ClientInstruction.Exit], true) ∧
    ¬ (router_thread [(ClientInstruction.Exit, [])]).1.count ClientInstruction.Exit = 2 := by
  decide

theorem router_thread_no_exit_decomp (pre rest : List (ClientInstruction × ErrCtx))
    (hpre : ∀ p ∈ pre, p.1 ≠ ClientInstruction.Exit) :
    router_thread (pre ++ rest) =
      (pre.map Prod.fst ++ (router_thread rest).1, (router_thread rest).2) := by
  induction pre with
  | nil => simp
  | cons p pr ih =>
    have hp : p.1 ≠ ClientInstruction.Exit := hpre p (List.mem_cons_self p pr)
    have hr : ∀ q ∈ pr, q.1 ≠ ClientInstruction.Exit :=
      fun q hq => hpre q (List.mem_cons_of_mem p hq)
    obtain ⟨i, c⟩ := p
    cases i with
    | Exit => exact absurd rfl hp
    | Error m => simp [router_thread, ih hr]
    | Render o => simp [router_thread, ih hr]
    | UnblockInputThread => simp [router_thread, ih hr]

/-- C2 (amended): when `recv_from_server` yields an `Exit`, the router stops
receiving further messages (its result is independent of anything after the
`Exit`), does not forward the received `Exit`, and sends exactly one
synthetic `Exit` instruction before returning, so exactly one `Exit` is
placed on the channel. -/
theorem router_exit_amended (pre rest : List (ClientInstruction × ErrCtx))
    (ctx : ErrCtx) (hpre : ∀ p ∈ pre, p.1 ≠ ClientInstruction.Exit) :
    router_thread (pre ++ (ClientInstruction.Exit, ctx) :: rest) =
      (pre.map Prod.fst ++ [ClientInstruction.Exit], true) ∧
    (router_thread (pre ++ (ClientInstruction.Exit, ctx) :: rest)).1.count
      ClientInstruction.Exit = 1 ∧
    router_thread (pre ++ (ClientInstruction.Exit, ctx) :: rest) =
      router_thread (pre ++ [(ClientInstruction.Exit, ctx)]) := by
  have h1 := router_thread_no_exit_decomp pre ((ClientInstruction.Exit, ctx) :: rest) hpre
  have h2 := router_thread_no_exit_decomp pre [(ClientInstruction.Exit, ctx)] hpre
  have hform : router_thread ((ClientInstruction.Exit, ctx) :: rest) =
      ([ClientInstruction.Exit], true) := by simp [router_thread]
  have hform2 : router_thread [(ClientInstruction.Exit, ctx)] =
      ([ClientInstruction.Exit], true) := by simp [router_thread]
  rw [h1, hform] at *
  have hnotmem : ClientInstruction.Exit ∉ pre.map Prod.fst := by
    intro hmem
    rcases List.mem_map.mp hmem with ⟨p, hp, hfst⟩
    exact hpre p hp hfst
  refine ⟨rfl, ?_, ?_⟩
  · simp [List.count_append, List.count_eq_zero_of_not_mem hnotmem]
  · rw [h2, hform2]

/-- C2 witness: the amended router behavior at a concrete run. -/
theorem router_exit_amended_witness :
    router_thread [(ClientInstruction.Render (some "a"), []),
      (ClientInstruction.Exit, [7]), (ClientInstruction.Error "late", [])] =
      ([ClientInstruction.Render (some "a"), ClientInstruction.Exit], true) := by
  have h := router_exit_amended [(ClientInstruction.Render (some "a"), [])]
    [(ClientInstruction.Error "late", [])] [7] (by decide)
  exact h.1

theorem count_clientExit_preEvents (pre : List (ClientInstruction × ErrCtx)) :
    (preEvents pre).count (Event.sendToServer ServerInstruction.ClientExit) = 0 :=
  List.count_eq_zero_of_not_mem
    (sendToServer_not_mem_preEvents ServerInstruction.ClientExit pre)

/-- C3: receiving `Error(msg)` after any run of non-terminal instructions
yields exit code 1, exactly one `ClientExit` to the server, raw mode unset
and the error text (cursor-to-last-row, then leave-alternate-screen, then the
message) written as the final events; the router join and goodbye teardown
never happen. -/
theorem error_precedence (ws : Winsize) (msg : String) (ctx : ErrCtx)
    (pre rest : List (ClientInstruction × ErrCtx))
    (hpre : ∀ p ∈ pre, nonTerminal p.1 = true) :
    (start_client (Except.ok ()) ws
        (pre ++ (ClientInstruction.Error msg, ctx) :: rest)).exitCode = some 1 ∧
    (start_client (Except.ok ()) ws
        (pre ++ (ClientInstruction.Error msg, ctx) :: rest)).trace =
      startupEvents ++ setupEvents ws ++ preEvents pre ++ errorArmEvents ws msg ∧
    (start_client (Except.ok ()) ws
        (pre ++ (ClientInstruction.Error msg, ctx) :: rest)).trace.count
      (Event.sendToServer ServerInstruction.ClientExit) = 1 ∧
    errorMessage ws msg = gotoStartOfLastLine ws ++ "\n" ++ restoreSnapshot ++ msg ∧
    Event.joinRouter ∉ (start_client (Except.ok ()) ws
        (pre ++ (ClientInstruction.Error msg, ctx) :: rest)).trace := by
  have hloop := mainLoop_nonTerminal_decomp ws pre
    ((ClientInstruction.Error msg, ctx) :: rest) hpre
  have harm : mainLoop ws ((ClientInstruction.Error msg, ctx) :: rest) =
      (errorArmEvents ws msg, LoopOutcome.exitedError) := by simp [mainLoop]
  rw [harm] at hloop
  have htrace : start_client (Except.ok ()) ws
      (pre ++ (ClientInstruction.Error msg, ctx) :: rest) =
      { trace := startupEvents ++ setupEvents ws ++ (preEvents pre ++ errorArmEvents ws msg),
        exitCode := some 1 } := by
    simp [start_client, hloop]
  refine ⟨by rw [htrace], by rw [htrace]; simp, ?_, rfl, ?_⟩
  · rw [htrace]
    simp [List.count_append, startupEvents, setupEvents, errorArmEvents,
      count_clientExit_preEvents, List.count_cons, takeSnapshot]
  · rw [htrace]
    intro hmem
    have hpe := joinRouter_not_mem_preEvents pre
    simp [startupEvents, setupEvents, errorArmEvents, List.mem_append, hpe] at hmem


/-- C3 witness: scenario with a render preceding the error. -/
theorem error_precedence_witness :
    (start_client (Except.ok ()) ⟨24, 80⟩
        [(ClientInstruction.Render (some "hi"), []),
         (ClientInstruction.Error "panic at router", [3])]).exitCode = some 1 ∧
    (start_client (Except.ok ()) ⟨24, 80⟩
        [(ClientInstruction.Render (some "hi"), []),
         (ClientInstruction.Error "panic at router", [3])]).trace.count
      (Event.sendToServer ServerInstruction.ClientExit) = 1 := by
  have h := error_precedence ⟨24, 80⟩ "panic at router" [3]
    [(ClientInstruction.Render (some "hi"), [])] [] (by decide)
  exact ⟨h.1, h.2.2.1⟩

/-- C5: any instruction sequence of non-terminal instructions ending in `Exit`
or `Render(None)` makes the orchestrator exit its loop with code 0, send
exactly one `ClientExit`, join the router thread, then unset raw mode and
write the goodbye message (cursor reposition, leave alternate screen, reset
style, show cursor, banner) followed by a flush. -/
theorem termination_completeness (ws : Winsize) (t : ClientInstruction) (ctx : ErrCtx)
    (pre : List (ClientInstruction × ErrCtx))
    (hpre : ∀ p ∈ pre, nonTerminal p.1 = true)
    (ht : t = ClientInstruction.Exit ∨ t = ClientInstruction.Render none) :
    (start_client (Except.ok ()) ws (pre ++ [(t, ctx)])).exitCode = some 0 ∧
    (start_client (Except.ok ()) ws (pre ++ [(t, ctx)])).trace =
      startupEvents ++ setupEvents ws ++ preEvents pre ++ teardownEvents ws ∧
    (start_client (Except.ok ()) ws (pre ++ [(t, ctx)])).trace.count
      (Event.sendToServer ServerInstruction.ClientExit) = 1 ∧
    teardownEvents ws = [Event.sendToServer ServerInstruction.ClientExit, Event.joinRouter,
      Event.unsetRawMode 0, Event.writeStdout (goodbyeMessage ws), Event.flushStdout] ∧
    goodbyeMessage ws = gotoStartOfLastLine ws ++ "\n" ++ restoreSnapshot ++ resetStyle
      ++ showCursor ++ "Bye from Zellij!\n" := by
  have harm : mainLoop ws [(t, ctx)] = ([], LoopOutcome.finished) := by
    rcases ht with h | h <;> subst h <;> simp [mainLoop]
  have hloop := mainLoop_nonTerminal_decomp ws pre [(t, ctx)] hpre
  rw [harm] at hloop
  have htrace : start_client (Except.ok ()) ws (pre ++ [(t, ctx)]) =
      { trace := startupEvents ++ setupEvents ws ++ preEvents pre ++ teardownEvents ws,
        exitCode := some 0 } := by
    simp [start_client, hloop]
  refine ⟨by rw [htrace], by rw [htrace], ?_, rfl, rfl⟩
  rw [htrace]
  simp [List.count_append, startupEvents, setupEvents, teardownEvents,
    count_clientExit_preEvents, List.count_cons, takeSnapshot]

/-- C5 witness: scenario A, `[Render(Some "hello"), UnblockInputThread, Exit]`. -/
theorem termination_completeness_witness :
    (start_client (Except.ok ()) ⟨24, 80⟩
        [(ClientInstruction.Render (some "hello"), []),
         (ClientInstruction.UnblockInputThread, []),
         (ClientInstruction.Exit, [])]).exitCode = some 0 ∧
    (start_client (Except.ok ()) ⟨24, 80⟩
        [(ClientInstruction.Render (some "hello"), []),
         (ClientInstruction.UnblockInputThread, []),
         (ClientInstruction.Exit, [])]).trace.count
      (Event.sendToServer ServerInstruction.ClientExit) = 1 := by
  have h := termination_completeness ⟨24, 80⟩ ClientInstruction.Exit []
    [(ClientInstruction.Render (some "hello"), []),
     (ClientInstruction.UnblockInputThread, [])] (by decide) (Or.inl rfl)
  exact ⟨h.1, h.2.2.1⟩

/-- C6: any number of consecutive `UnblockInputThread` instructions only
releases the gate once each and leaves the loop blocked on the next receive,
still running: no terminal outcome and no exit code. -/
theorem gate_idempotence (ws : Winsize) (n : Nat) (ctx : ErrCtx) :
    mainLoop ws (List.replicate n (ClientInstruction.UnblockInputThread, ctx)) =
      (List.replicate n Event.unblockGate, LoopOutcome.blocked) ∧
    (start_client (Except.ok ()) ws
      (List.replicate n (ClientInstruction.UnblockInputThread, ctx))).exitCode = none := by
  have h : ∀ m, mainLoop ws (List.replicate m (ClientInstruction.UnblockInputThread, ctx)) =
      (List.replicate m Event.unblockGate, LoopOutcome.blocked) := by
    intro m
    induction m with
    | zero => simp [mainLoop]
    | succ k ih => simp [List.replicate_succ, mainLoop, ih]
  exact ⟨h n, by simp [start_client, h n]⟩

/-- C10: on the normal teardown path the goodbye output is exactly the
cursor-to-row escape, a newline, leave-alternate-screen, reset-style,
show-cursor, then the banner text with trailing newline, written after raw
mode is unset and followed by a flush. -/
theorem goodbye_bytes (ws : Winsize) (ctx : ErrCtx)
    (pre : List (ClientInstruction × ErrCtx))
    (hpre : ∀ p ∈ pre, nonTerminal p.1 = true) :
    (∃ t0, (start_client (Except.ok ()) ws (pre ++ [(ClientInstruction.Exit, ctx)])).trace =
      t0 ++ [Event.unsetRawMode 0, Event.writeStdout (goodbyeMessage ws),
             Event.flushStdout]) ∧
    goodbyeMessage ws = gotoStartOfLastLine ws ++ "\n" ++ restoreSnapshot ++ resetStyle
      ++ showCursor ++ "Bye from Zellij!\n" ∧
    goodbyeMessage ⟨24, 80⟩ = "\x1b[24;1H\n\x1b[?1049l\x1b[m\x1b[?25hBye from Zellij!\n" := by
  have harm : mainLoop ws [(ClientInstruction.Exit, ctx)] = ([], LoopOutcome.finished) := by
    simp [mainLoop]
  have hloop := mainLoop_nonTerminal_decomp ws pre [(ClientInstruction.Exit, ctx)] hpre
  rw [harm] at hloop
  have htrace : start_client (Except.ok ()) ws (pre ++ [(ClientInstruction.Exit, ctx)]) =
      { trace := startupEvents ++ setupEvents ws ++ preEvents pre ++ teardownEvents ws,
        exitCode := some 0 } := by
    simp [start_client, hloop]
  refine ⟨⟨startupEvents ++ setupEvents ws ++ preEvents pre ++
    [Event.sendToServer ServerInstruction.ClientExit, Event.joinRouter], ?_⟩, rfl, rfl⟩
  rw [htrace]
  simp [teardownEvents]

/-- C10 witness: the goodbye bytes on the run `[Exit]`. -/
theorem goodbye_bytes_witness :
    goodbyeMessage ⟨24, 80⟩ = "\x1b[24;1H\n\x1b[?1049l\x1b[m\x1b[?25hBye from Zellij!\n" ∧
    (∃ t0, (start_client (Except.ok ()) ⟨24, 80⟩ [(ClientInstruction.Exit, [])]).trace =
      t0 ++ [Event.unsetRawMode 0, Event.writeStdout (goodbyeMessage ⟨24, 80⟩),
             Event.flushStdout]) := by
  have h := goodbye_bytes ⟨24, 80⟩ [] [] (by decide)
  exact ⟨h.2.2, h.1⟩

/-- C4: the claim as stated is false at the concrete run `[Error "boom"]`:
the process exits 1 but no write on this failure path contains the
show-cursor escape `ESC[?25h`, so the cursor is not made visible. -/
theorem error_show_cursor_cex :
    (start_client (Except.ok ()) ⟨24, 80⟩
        [(ClientInstruction.Error "boom", [])]).exitCode = some 1 ∧
    writesContaining showCursor
      (start_client (Except.ok ()) ⟨24, 80⟩
        [(ClientInstruction.Error "boom", [])]).trace = false := by
  decide

/-- C4 (amended): on the failure path the alternate screen is exited, raw
mode is turned off and the message is written positioned at the last row, but
the show-cursor escape `ESC[?25h` is not emitted by the error path (no write
of the run contains it, provided the error text itself does not). -/
theorem error_restore_amended (ws : Winsize) (msg : String) (ctx : ErrCtx)
    (h : ¬ showCursor.data <:+: (errorMessage ws msg).data) :
    (start_client (Except.ok ()) ws
        [(ClientInstruction.Error msg, ctx)]).exitCode = some 1 ∧
    (start_client (Except.ok ()) ws [(ClientInstruction.Error msg, ctx)]).trace =
      startupEvents ++ setupEvents ws ++ errorArmEvents ws msg ∧
    errorMessage ws msg = gotoStartOfLastLine ws ++ "\n" ++ restoreSnapshot ++ msg ∧
    Event.unsetRawMode 0 ∈ errorArmEvents ws msg ∧
    writesContaining showCursor
      (start_client (Except.ok ()) ws
        [(ClientInstruction.Error msg, ctx)]).trace = false := by
  have htrace : start_client (Except.ok ()) ws [(ClientInstruction.Error msg, ctx)] =
      { trace := startupEvents ++ setupEvents ws ++ errorArmEvents ws msg,
        exitCode := some 1 } := by
    simp [start_client, mainLoop]
  have h1 : decide (showCursor.data <:+: takeSnapshot.data) = false := by decide
  have h2 : decide (showCursor.data <:+: (errorMessage ws msg).data) = false :=
    decide_eq_false h
  refine ⟨by rw [htrace], by rw [htrace], rfl, by simp [errorArmEvents], ?_⟩
  rw [htrace]
  simp [writesContaining, startupEvents, setupEvents, errorArmEvents, h1, h2]

/-- C4 witness: the amended failure-path behavior at a concrete input. -/
theorem error_restore_amended_witness :
    (start_client (Except.ok ()) ⟨24, 80⟩
        [(ClientInstruction.Error "panic at router", [5])]).exitCode = some 1 ∧
    writesContaining showCursor
      (start_client (Except.ok ()) ⟨24, 80⟩
        [(ClientInstruction.Error "panic at router", [5])]).trace = false := by
  have h := error_restore_amended ⟨24, 80⟩ "panic at router" [5] (by decide)
  exact ⟨h.1, h.2.2.2.2⟩

/-- C7: the terminal size used by shutdown and error formatting is the one
captured at startup (query 0); the orchestrator's behavior is independent of
every later size query (the resize history), the signal listener never
writes to stdout, and both the error output and the goodbye message begin
with the cursor-to-row escape built from the startup rows value. -/
theorem startup_size_snapshot (g1 g2 : Nat → Winsize) (h : g1 0 = g2 0)
    (cfg : Except String Unit) (instrs : List (ClientInstruction × ErrCtx))
    (n m : Nat) (msg : String) (sizes : List Winsize) :
    (client_system g1 cfg instrs n).1 = (client_system g2 cfg instrs m).1 ∧
    (∀ s, Event.writeStdout s ∉ signal_thread sizes) ∧
    (gotoStartOfLastLine (g1 0)).data <+: (errorMessage (g1 0) msg).data ∧
    (gotoStartOfLastLine (g1 0)).data <+: (goodbyeMessage (g1 0)).data ∧
    gotoStartOfLastLine (g1 0) =
      "\x1b[" ++ toString (g1 0).rows ++ ";" ++ toString 1 ++ "H" := by
  refine ⟨by simp [client_system, h], ?_, ?_, ?_, rfl⟩
  · intro s hmem
    simp [signal_thread] at hmem
  · exact ⟨("\n".data ++ restoreSnapshot.data ++ msg.data),
      by simp [errorMessage, String.data_append]⟩
  · exact ⟨("\n".data ++ restoreSnapshot.data ++ resetStyle.data ++ showCursor.data
      ++ "Bye from Zellij!\n".data),
      by simp [goodbyeMessage, String.data_append]⟩

/-- C7 witness: a run whose resize history differs but whose startup size
agrees gives the identical orchestrator result. -/
theorem startup_size_snapshot_witness :
    (client_system (fun _ => ⟨24, 80⟩) (Except.ok ())
        [(ClientInstruction.Exit, [])] 0).1 =
      (client_system (fun t => if t = 0 then ⟨24, 80⟩ else ⟨99, 33⟩) (Except.ok ())
        [(ClientInstruction.Exit, [])] 3).1 ∧
    Event.writeStdout "x" ∉ signal_thread [⟨99, 33⟩] := by
  have h := startup_size_snapshot (fun _ => ⟨24, 80⟩)
    (fun t => if t = 0 then ⟨24, 80⟩ else ⟨99, 33⟩) rfl (Except.ok ())
    [(ClientInstruction.Exit, [])] 0 3 "m" [⟨99, 33⟩]
  exact ⟨h.1, h.2.1 "x"⟩

/-- C8: the instruction channel has fixed capacity 500, a send into a full
queue blocks the producer (nothing dropped, nothing failed), receive dequeues
the head (FIFO), and once the consumer drains one slot the previously blocked
producer's send completes by appending at the tail. -/
theorem channel_backpressure (q2 rest : List (ClientInstruction × ErrCtx))
    (x y p : ClientInstruction × ErrCtx)
    (hfull : (p :: rest).length = channelBound)
    (hroom : q2.length < channelBound) :
    channelBound = 500 ∧
    chSend (p :: rest) x = SendOutcome.blockedFull ∧
    chRecv (p :: rest) = some (p, rest) ∧
    chSend rest x = SendOutcome.sent (rest ++ [x]) ∧
    chSend q2 y = SendOutcome.sent (q2 ++ [y]) ∧
    chRecv (y :: q2) = some (y, q2) := by
  have hr : rest.length < channelBound := by
    simp only [List.length_cons] at hfull
    omega
  refine ⟨rfl, ?_, rfl, ?_, ?_, rfl⟩
  · simp [chSend, hfull]
  · simp [chSend, hr]
  · simp [chSend, hroom]

/-- C8 witness: a concrete full queue of 500 entries blocks a send; after one
receive the same send completes. -/
theorem channel_backpressure_witness :
    chSend ((ClientInstruction.Exit, ([] : ErrCtx)) ::
        List.replicate 499 (ClientInstruction.Exit, ([] : ErrCtx)))
      (ClientInstruction.Error "w", []) = SendOutcome.blockedFull ∧
    chSend (List.replicate 499 (ClientInstruction.Exit, ([] : ErrCtx)))
      (ClientInstruction.Error "w", []) =
      SendOutcome.sent (List.replicate 499 (ClientInstruction.Exit, ([] : ErrCtx))
        ++ [(ClientInstruction.Error "w", [])]) := by
  have h := channel_backpressure []
    (List.replicate 499 (ClientInstruction.Exit, ([] : ErrCtx)))
    (ClientInstruction.Error "w", []) (ClientInstruction.Error "w", [])
    (ClientInstruction.Exit, ([] : ErrCtx))
    (by rw [List.length_cons, List.length_replicate, channelBound])
    (by norm_num [channelBound])
  exact ⟨h.2.1, h.2.2.2.1⟩

theorem mainLoop_ctx_irrelevant (ws : Winsize)
    (l1 l2 : List (ClientInstruction × ErrCtx))
    (h : l1.map Prod.fst = l2.map Prod.fst) :
    mainLoop ws l1 = mainLoop ws l2 := by
  induction l1 generalizing l2 with
  | nil =>
    cases l2 with
    | nil => rfl
    | cons q l => simp at h
  | cons p l1t ih =>
    cases l2 with
    | nil => simp at h
    | cons q l2t =>
      obtain ⟨i, c⟩ := p
      obtain ⟨j, d⟩ := q
      simp only [List.map_cons, List.cons.injEq] at h
      obtain ⟨hij, ht⟩ := h
      subst hij
      cases i with
      | Error m => simp [mainLoop]
      | Exit => simp [mainLoop]
      | Render o =>
        cases o with
        | none => simp [mainLoop]
        | some s => simp [mainLoop, ih l2t ht]
      | UnblockInputThread => simp [mainLoop, ih l2t ht]

/-- C9: diagnostic contexts never influence control flow: two runs of the
orchestrator that receive the same instruction values with arbitrarily
different attached contexts produce the identical trace (terminal bytes,
server messages, gate releases) and exit code. -/
theorem context_noninterference (cfg : Except String Unit) (ws : Winsize)
    (l1 l2 : List (ClientInstruction × ErrCtx))
    (h : l1.map Prod.fst = l2.map Prod.fst) :
    start_client cfg ws l1 = start_client cfg ws l2 := by
  cases cfg with
  | error e => rfl
  | ok u => simp [start_client, mainLoop_ctx_irrelevant ws l1 l2 h]

/-- C9 witness: two concrete runs differing only in contexts coincide. -/
theorem context_noninterference_witness :
    start_client (Except.ok ()) ⟨24, 80⟩
        [(ClientInstruction.Render (some "a"), [1, 2]), (ClientInstruction.Exit, [3])] =
      start_client (Except.ok ()) ⟨24, 80⟩
        [(ClientInstruction.Render (some "a"), []),
         (ClientInstruction.Exit, [9, 9, 9])] :=
  context_noninterference (Except.ok ()) ⟨24, 80⟩ _ _ (by decide)
